import Mathlib

/-!
Shallow embedding of the per-layer data model and pipeline contracts of
src/xs/src/libslic3r/Layer.hpp (Slic3r / PrusaSlicer layer core).

Geometry primitives (points, polygons, expolygons, surfaces, extrusion
entities) mirror the container shapes the header uses. Machine scalars:
the scaled integer coordinates become Int, the unscaled coordf_t (double)
values become Rat (the constructors and queries proved here do no floating
arithmetic on them, only store and compare). Pointers become arena indices
(Nat) or Option values, following the ownership model of the code.

Method bodies that live outside the provided source (Layer.cpp /
LayerRegion.cpp) are modelled from the spec; each such definition carries a
doc comment starting with "Modelled from the spec:".
-/

namespace Slic3r

/-- A point in scaled integer coordinates. -/
abbrev Point := Int × Int

/-- A closed polygon: its vertex list. -/
structure Polygon where
  points : List Point
deriving DecidableEq, Repr

abbrev Polygons := List Polygon

/-- An expolygon: one outer contour plus hole contours. -/
structure ExPolygon where
  contour : Polygon
  holes : List Polygon
deriving DecidableEq, Repr

abbrev ExPolygons := List ExPolygon

/-- An open polyline. -/
structure Polyline where
  points : List Point
deriving DecidableEq, Repr

/-- Mirrors PolylineCollection: a list of polylines. -/
structure PolylineCollection where
  polylines : List Polyline
deriving DecidableEq, Repr

/-- Mirrors ExPolygonCollection: the list of expolygons it owns. -/
structure ExPolygonCollection where
  expolygons : List ExPolygon
deriving DecidableEq, Repr

/-- Surface classification labels, as in Surface.hpp. -/
inductive SurfaceType where
  | stTop
  | stBottom
  | stBottomBridge
  | stInternal
  | stInternalSolid
  | stInternalBridge
  | stInternalVoid
deriving DecidableEq, Repr

/-- A classified surface: a label and its geometry. -/
structure Surface where
  surface_type : SurfaceType
  expolygon : ExPolygon
deriving DecidableEq, Repr

/-- Mirrors SurfaceCollection: the surfaces it owns. -/
structure SurfaceCollection where
  surfaces : List Surface
deriving DecidableEq, Repr

/-- One extrusion path: a polyline with a deposition width (scaled units). -/
structure ExtrusionPath where
  polyline : List Point
  width : Int
deriving DecidableEq, Repr

/-- An extrusion entity: a single path, or a nested group of paths
(the header notes that perimeters/fills hold only collection objects). -/
inductive ExtrusionEntity where
  | path (p : ExtrusionPath)
  | group (paths : List ExtrusionPath)
deriving DecidableEq, Repr

/-- Mirrors ExtrusionEntityCollection: its ordered entities. -/
structure ExtrusionEntityCollection where
  entities : List ExtrusionEntity
deriving DecidableEq, Repr

/-- The empty() query of ExtrusionEntityCollection: no entities held. -/
def ExtrusionEntityCollection.empty (c : ExtrusionEntityCollection) : Bool :=
  c.entities.isEmpty

/-- Extrusion roles accepted by flow(), as in Flow.hpp. -/
inductive FlowRole where
  | frExternalPerimeter
  | frPerimeter
  | frInfill
  | frSolidInfill
  | frTopSolidInfill
  | frSupportMaterial
  | frSupportMaterialInterface
deriving DecidableEq, Repr

/-- Deposition geometry returned by the flow model. -/
structure Flow where
  width : Rat
  height : Rat
  bridge : Bool
deriving DecidableEq, Repr

/-- The slice of PrintRegion configuration this layer core reads:
perimeter count, nominal extrusion width and nozzle diameter. -/
structure PrintRegion where
  perimeters : Nat
  extrusion_width : Int
  nozzle_diameter : Rat
deriving DecidableEq, Repr

/-- Mirrors LayerRegion of Layer.hpp. Back references are arena indices
(the _layer field) plus a snapshot of the owning layer's height, which is
the only datum flow() reads through the layer pointer; the PrintRegion
configuration is held by value. -/
structure LayerRegion where
  slices : SurfaceCollection
  fill_expolygons : ExPolygons
  fill_no_overlap_expolygons : ExPolygons
  fill_surfaces : SurfaceCollection
  thin_fills : ExtrusionEntityCollection
  bridged : Polygons
  unsupported_bridge_edges : PolylineCollection
  perimeters : ExtrusionEntityCollection
  fills : ExtrusionEntityCollection
  _layer : Nat
  layer_height : Rat
  _region : PrintRegion
deriving DecidableEq, Repr

/-- The LayerRegion constructor: it sets only the back references; every
geometry collection is default-constructed empty. -/
def LayerRegion.mkRegion (layer : Nat) (layer_height : Rat)
    (region : PrintRegion) : LayerRegion :=
  { slices := ⟨[]⟩
    fill_expolygons := []
    fill_no_overlap_expolygons := []
    fill_surfaces := ⟨[]⟩
    thin_fills := ⟨[]⟩
    bridged := []
    unsupported_bridge_edges := ⟨[]⟩
    perimeters := ⟨[]⟩
    fills := ⟨[]⟩
    _layer := layer
    layer_height := layer_height
    _region := region }

/-- LayerRegion::has_extrusions of Layer.hpp:
true when perimeters or fills holds at least one entity. -/
def LayerRegion.has_extrusions (r : LayerRegion) : Bool :=
  !r.perimeters.entities.isEmpty || !r.fills.entities.isEmpty

/-- Mirrors Layer of Layer.hpp. Neighbor pointers become optional arena
indices; coordf_t becomes Rat; regions are owned by value in order. -/
structure Layer where
  upper_layer : Option Nat
  lower_layer : Option Nat
  regions : List LayerRegion
  slicing_errors : Bool
  slice_z : Rat
  print_z : Rat
  height : Rat
  slices : ExPolygonCollection
  _id : Nat
  _object : Nat
deriving DecidableEq, Repr

/-- The Layer constructor of Layer.hpp: null neighbors, no slicing errors,
the three Z data and identity stored as given; the regions list and the
slices collection are default-constructed empty. -/
def Layer.mkLayer (id object : Nat) (height print_z slice_z : Rat) : Layer :=
  { upper_layer := none
    lower_layer := none
    regions := []
    slicing_errors := false
    slice_z := slice_z
    print_z := print_z
    height := height
    slices := ⟨[]⟩
    _id := id
    _object := object }

/-- Layer::has_extrusions of Layer.hpp: scans the regions and reports true
as soon as one region has extrusions. -/
def Layer.has_extrusions (l : Layer) : Bool :=
  l.regions.any (fun layerm => layerm.has_extrusions)

/-- Layer::region_count of Layer.hpp. -/
def Layer.region_count (l : Layer) : Nat :=
  l.regions.length

/-- Layer::get_region of Layer.hpp: regions.at(idx). The C++ int index is
converted to the unsigned vector size type, so every negative index is out
of range; at() throws std::out_of_range instead of invoking undefined
behavior, modelled as Except. -/
def Layer.get_region (l : Layer) (idx : Int) : Except String LayerRegion :=
  if h : 0 ≤ idx ∧ idx.toNat < l.regions.length then
    .ok (l.regions.get ⟨idx.toNat, h.2⟩)
  else
    .error "out_of_range"

/-- Squared Euclidean distance between two scaled points. -/
def sqDist (a b : Point) : Int :=
  (a.1 - b.1) ^ 2 + (a.2 - b.2) ^ 2

/-- Entry point of an island used by the travel heuristic: the first vertex
of its contour (origin for a degenerate empty contour). -/
def entryPoint (e : ExPolygon) : Point :=
  e.contour.points.headD (0, 0)

/-- Modelled from the spec: the external polygon union that merges all
regions' slice expolygons into the island set (the clipper library is
outside this core). Represented as duplicate removal preserving first
occurrence: identical islands merge, distinct islands are kept in input
order. -/
def union_ex (es : ExPolygons) : ExPolygons :=
  es.foldl (fun acc e => if e ∈ acc then acc else acc ++ [e]) []

/-- Pick, from an indexed island list, the island whose entry point is
nearest to p, ties broken by the smaller original index; returns it with
the remaining islands. -/
def pickNearest (p : Point) :
    List (Nat × ExPolygon) → Option ((Nat × ExPolygon) × List (Nat × ExPolygon))
  | [] => none
  | x :: rest =>
    match pickNearest p rest with
    | none => some (x, [])
    | some (b, others) =>
      if sqDist p (entryPoint x.2) ≤ sqDist p (entryPoint b.2) then
        some (x, rest)
      else
        some (b, x :: others)

/-- Greedy nearest-next chaining of islands starting from point p; the fuel
argument bounds the recursion by the number of islands. -/
def chainIslands (fuel : Nat) (p : Point) (xs : List (Nat × ExPolygon)) :
    List ExPolygon :=
  match fuel with
  | 0 => []
  | fuel' + 1 =>
    match pickNearest p xs with
    | none => []
    | some ((_, e), rest) => e :: chainIslands fuel' (entryPoint e) rest

/-- Modelled from the spec: the island set computed by merge_slices from
the regions' slice collections — the union of all slice expolygons,
reordered by the deterministic greedy nearest-next heuristic with ties
broken by original index. -/
def mergeSlicesOf (scs : List SurfaceCollection) : ExPolygons :=
  let merged := union_ex (scs.flatMap (fun sc => sc.surfaces.map (fun s => s.expolygon)))
  chainIslands merged.length (0, 0) merged.enum

/-- Modelled from the spec: Layer::merge_slices (body in Layer.cpp, not
under the provided source) sets this layer's slices to the merged,
travel-ordered island set derived from its regions' slices; no other field
is touched. -/
def Layer.merge_slices (l : Layer) : Layer :=
  { l with slices := ⟨mergeSlicesOf (l.regions.map (fun r => r.slices))⟩ }

/-- Modelled from the spec: a translation marker standing for the external
inward polygon offset by distance d (the true geometric inset lives in the
clipper library, outside this core). -/
def insetPoly (e : ExPolygon) (d : Int) : List Point :=
  e.contour.points.map (fun p => (p.1 + d, p.2 + d))

/-- Modelled from the spec: LayerRegion::slices_to_fill_surfaces_clipped
(body outside the provided source) derives fill_surfaces from slices by
removing the perimeter-consumed band (inset by the extrusion width) and
clipping away the neighboring-region overlap working set; it reads only
slices, the overlap set and the region configuration, and writes only
fill_surfaces. -/
def LayerRegion.slices_to_fill_surfaces_clipped (r : LayerRegion) : LayerRegion :=
  let kept := r.slices.surfaces.filter
    (fun s => !(r.fill_no_overlap_expolygons.contains s.expolygon))
  let clipped := kept.map (fun s =>
    { s with expolygon :=
        { contour := ⟨insetPoly s.expolygon r._region.extrusion_width⟩
          holes := s.expolygon.holes } })
  { r with fill_surfaces := ⟨clipped⟩ }

/-- Modelled from the spec: the coverage test of the external-surface
corrector — whether the lower layer's island set supports a bottom
surface's geometry. -/
def supportedBy (lower : ExPolygonCollection) (e : ExPolygon) : Bool :=
  lower.expolygons.contains e

/-- Modelled from the spec: LayerRegion::process_external_surfaces (body
outside the provided source). With a lower layer present, every bottom
surface not supported by the lower layer's islands is reclassified as a
bridge and its contour recorded in unsupported_bridge_edges; with a null
lower layer (the lowest layer) there is no correction input and the
classification is left least-corrected: nothing is reclassified and
nothing is recorded. -/
def LayerRegion.process_external_surfaces (r : LayerRegion)
    (lower_layer : Option Layer) : LayerRegion :=
  match lower_layer with
  | none => r
  | some lower =>
    let bridging := fun (s : Surface) =>
      s.surface_type = SurfaceType.stBottom ∧ ¬ supportedBy lower.slices s.expolygon
    let newSurfaces := r.slices.surfaces.map (fun s =>
      if bridging s then { s with surface_type := SurfaceType.stBottomBridge } else s)
    let newEdges := (r.slices.surfaces.filter (fun s => bridging s)).map
      (fun s => Polyline.mk s.expolygon.contour.points)
    { r with
        slices := ⟨newSurfaces⟩
        unsupported_bridge_edges :=
          ⟨r.unsupported_bridge_edges.polylines ++ newEdges⟩ }

/-- Narrowest bounding-box extent of an island, used to decide how many
perimeter loops fit and whether the island is thinner than one extrusion
width. -/
def islandWidth (e : ExPolygon) : Int :=
  match e.contour.points with
  | [] => 0
  | p :: rest =>
    let xr := rest.foldl (fun mm q => (min mm.1 q.1, max mm.2 q.1)) (p.1, p.1)
    let yr := rest.foldl (fun mm q => (min mm.1 q.2, max mm.2 q.2)) (p.2, p.2)
    min (xr.2 - xr.1) (yr.2 - yr.1)

/-- How many loops of width ew fit into an island of narrowest extent islW
when insetting from both sides. -/
def maxLoops (islW ew : Int) : Nat :=
  ((islW + ew) / (2 * ew)).toNat

/-- The i-th perimeter loop group of an island: one nested collection
holding the contour inset to loop depth i, deposited at full extrusion
width; increasing i means further inward. -/
def loopGroup (ew : Int) (e : ExPolygon) (i : Nat) : ExtrusionEntity :=
  ExtrusionEntity.group [⟨insetPoly e (((2 * (i : Int) + 1) * ew) / 2), ew⟩]

/-- Modelled from the spec: the per-island shell generation inside
make_perimeters — an island narrower than one extrusion width yields no
perimeter loop and one thin-fill path over its spine; otherwise at most
the configured number of loops (bounded by how many fit) are produced in
outer-to-inner order, each at full extrusion width. Returns the loop
groups and the thin fills. -/
def perimetersForIsland (n : Nat) (ew : Int) (e : ExPolygon) :
    List ExtrusionEntity × List ExtrusionEntity :=
  let w := islandWidth e
  if w < ew then
    ([], [ExtrusionEntity.path ⟨e.contour.points, w⟩])
  else
    ((List.range (min n (maxLoops w ew))).map (loopGroup ew e), [])

/-- Modelled from the spec: LayerRegion::make_perimeters (body outside the
provided source). For every classified slice island it runs the shell
generator, concatenates the loop groups into perimeters in island order
(each island's groups outer-to-inner), stores the thin fills, and returns
the interior remainder (the area left inside the innermost loop of each
non-thin island) as the fill_surfaces output argument. -/
def LayerRegion.make_perimeters (r : LayerRegion) (slices : SurfaceCollection) :
    LayerRegion × SurfaceCollection :=
  let n := r._region.perimeters
  let ew := r._region.extrusion_width
  let per_island := slices.surfaces.map (fun s => perimetersForIsland n ew s.expolygon)
  let loops := (per_island.map (fun pr => pr.1)).flatten
  let thins := (per_island.map (fun pr => pr.2)).flatten
  let remainder := (slices.surfaces.filter
      (fun s => !(islandWidth s.expolygon < ew : Bool))).map (fun s =>
    { s with
        surface_type := SurfaceType.stInternal
        expolygon :=
          { contour := ⟨insetPoly s.expolygon
              ((min n (maxLoops (islandWidth s.expolygon) ew) : Int) * ew)⟩
            holes := s.expolygon.holes } })
  ({ r with perimeters := ⟨loops⟩, thin_fills := ⟨thins⟩ }, ⟨remainder⟩)

/-- Modelled from the spec: the external flow model — turns the extrusion
role, the bridge flag and an optional width override into deposition
geometry using the region's configured width, its nozzle diameter and the
owning layer's height. A bridge extrudes a round bead at nozzle diameter;
otherwise the override (when positive) or the configured width applies at
the layer height. -/
def flowModel (region : PrintRegion) (layer_height : Rat) (role : FlowRole)
    (bridge : Bool) (width : Int) : Flow :=
  if bridge then
    { width := region.nozzle_diameter, height := region.nozzle_diameter, bridge := true }
  else
    let w : Int := if 0 < width then width else region.extrusion_width
    let h : Rat := match role with
      | FlowRole.frSupportMaterial => layer_height
      | FlowRole.frSupportMaterialInterface => layer_height
      | _ => layer_height
    { width := (w : Rat), height := h, bridge := false }

/-- LayerRegion::flow: a const member, declared in Layer.hpp and modelled
from the spec as a delegation to the external flow model with this
region's configuration and its layer's height. -/
def LayerRegion.flow (r : LayerRegion) (role : FlowRole) (bridge : Bool)
    (width : Int) : Flow :=
  flowModel r._region r.layer_height role bridge width

/-- State-passing form of LayerRegion::flow, making the frame condition of
the const method explicit: the call returns the deposition geometry
together with the (unchanged) region state. -/
def LayerRegion.flowSt (r : LayerRegion) (role : FlowRole) (bridge : Bool)
    (width : Int) : Flow × LayerRegion :=
  (r.flow role bridge width, r)

/-- Mirrors SupportLayer of Layer.hpp: a Layer plus support islands and
support fill paths. -/
structure SupportLayer where
  toLayer : Layer
  support_islands : ExPolygonCollection
  support_fills : ExtrusionEntityCollection
deriving DecidableEq, Repr

/-- SupportLayer::has_extrusions of Layer.hpp: looks only at support_fills,
never at the base layer's region list. -/
def SupportLayer.has_extrusions (s : SupportLayer) : Bool :=
  !s.support_fills.empty

/-- Lists of extrusion paths held by one extrusion entity. -/
def entityPaths : ExtrusionEntity → List ExtrusionPath
  | ExtrusionEntity.path p => [p]
  | ExtrusionEntity.group ps => ps

/-- Sample region configuration used by the concrete witnesses. -/
def samplePr : PrintRegion :=
  { perimeters := 2, extrusion_width := 2, nozzle_diameter := (1 : Rat) }

/-- A sample classified surface: a 10 by 10 bottom square. -/
def sampleSurface : Surface :=
  { surface_type := SurfaceType.stBottom
    expolygon := { contour := ⟨[(0, 0), (10, 0), (10, 10), (0, 10)]⟩, holes := [] } }

/-- A sample region holding one sliced surface. -/
def sampleRegionA : LayerRegion :=
  { LayerRegion.mkRegion 0 (1 : Rat) samplePr with slices := ⟨[sampleSurface]⟩ }

/-- A sample layer holding the sample region. -/
def sampleLayerA : Layer :=
  { Layer.mkLayer 0 0 (1 : Rat) (1 : Rat) (1 : Rat) with regions := [sampleRegionA] }

/-- The sample layer with a repaired-geometry flag set: its region slices
are identical to those of the first sample layer. -/
def sampleLayerB : Layer :=
  { sampleLayerA with slicing_errors := true }

/-- C1: LayerRegion::has_extrusions is true exactly when the perimeters
collection or the fills collection holds at least one entity, and a
freshly constructed LayerRegion (whose collections are all
default-constructed empty) reports false. -/
theorem LayerRegion_has_extrusions_spec :
    ∀ r : LayerRegion,
      (r.has_extrusions = true ↔
        (r.perimeters.entities ≠ [] ∨ r.fills.entities ≠ [])) ∧
      (∀ (la : Nat) (lh : Rat) (pr : PrintRegion),
        (LayerRegion.mkRegion la lh pr).has_extrusions = false) := by
  intro r
  constructor
  · simp [LayerRegion.has_extrusions]
  · intro la lh pr
    rfl

/-- C2: SupportLayer::has_extrusions is true exactly when support_fills is
non-empty, and the base layer's region list plays no role: replacing the
regions by any list leaves the answer unchanged. -/
theorem SupportLayer_has_extrusions_spec :
    ∀ s : SupportLayer,
      (s.has_extrusions = true ↔ s.support_fills.entities ≠ []) ∧
      (∀ regs : List LayerRegion,
        ({ s with toLayer := { s.toLayer with regions := regs } }
            : SupportLayer).has_extrusions = s.has_extrusions) := by
  intro s
  constructor
  · simp [SupportLayer.has_extrusions, ExtrusionEntityCollection.empty]
  · intro regs
    rfl

/-- C3: Layer::has_extrusions is true exactly when some region in the
layer's regions collection has extrusions, and a layer whose regions list
is empty reports false whatever its other fields hold. -/
theorem Layer_has_extrusions_spec :
    ∀ l : Layer,
      (l.has_extrusions = true ↔
        ∃ r ∈ l.regions, r.has_extrusions = true) ∧
      (∀ (ul ll : Option Nat) (se : Bool) (sz pz ht : Rat)
          (sl : ExPolygonCollection) (id ob : Nat),
        (Layer.mk ul ll [] se sz pz ht sl id ob).has_extrusions = false) := by
  intro l
  constructor
  · simp [Layer.has_extrusions, List.any_eq_true]
  · intro ul ll se sz pz ht sl id ob
    rfl

/-- C4: merge_slices is deterministic — two layers whose regions carry
identical slice collections receive the identical ordered island sequence,
ties in the travel heuristic being broken by original index. -/
theorem merge_slices_deterministic :
    ∀ l1 l2 : Layer,
      l1.regions.map (fun r => r.slices) = l2.regions.map (fun r => r.slices) →
      (l1.merge_slices).slices = (l2.merge_slices).slices := by
  intro l1 l2 h
  show (⟨mergeSlicesOf (l1.regions.map (fun r => r.slices))⟩ : ExPolygonCollection)
      = ⟨mergeSlicesOf (l2.regions.map (fun r => r.slices))⟩
  rw [h]

/-- Witness for C4: two concrete layers differing in slicing_errors but
with identical region slices get the identical island order. -/
theorem merge_slices_deterministic_witness :
    (sampleLayerA.regions.map (fun r => r.slices)
        = sampleLayerB.regions.map (fun r => r.slices)) ∧
    (sampleLayerA.merge_slices).slices = (sampleLayerB.merge_slices).slices :=
  ⟨rfl, merge_slices_deterministic sampleLayerA sampleLayerB rfl⟩

/-- C5: slices_to_fill_surfaces_clipped is idempotent — it reads only the
slice surfaces, the overlap working set and the region configuration, and
writes only fill_surfaces, so a second call with no intervening perimeter
step reproduces the fill surfaces of the first call exactly. -/
theorem slices_to_fill_surfaces_clipped_idempotent :
    ∀ r : LayerRegion,
      r.slices_to_fill_surfaces_clipped.slices_to_fill_surfaces_clipped
        = r.slices_to_fill_surfaces_clipped := by
  intro r
  rfl

/-- C6: process_external_surfaces with a null lower layer is a valid call
that performs no correction: the surface classifications are left exactly
as they were (no bottom surface becomes a bridge) and nothing is recorded
in unsupported_bridge_edges. -/
theorem process_external_surfaces_null_spec :
    ∀ r : LayerRegion,
      (r.process_external_surfaces none).slices = r.slices ∧
      (r.process_external_surfaces none).unsupported_bridge_edges
        = r.unsupported_bridge_edges := by
  intro r
  exact ⟨rfl, rfl⟩

/-- C7: make_perimeters writes, for each island in order, that island's
loop groups into perimeters (outer-to-inner: the group list is indexed by
increasing inset depth) and its thin fills into thin_fills; per island at
most the configured number of groups is produced, an island narrower than
one extrusion width yields no loop group and a non-empty thin fill, and
every produced perimeter path has the full positive extrusion width. -/
theorem make_perimeters_spec :
    ∀ (r : LayerRegion) (sc : SurfaceCollection),
      0 < r._region.extrusion_width →
      ((r.make_perimeters sc).1.perimeters.entities
          = (sc.surfaces.map (fun s =>
              (perimetersForIsland r._region.perimeters
                r._region.extrusion_width s.expolygon).1)).flatten) ∧
      ((r.make_perimeters sc).1.thin_fills.entities
          = (sc.surfaces.map (fun s =>
              (perimetersForIsland r._region.perimeters
                r._region.extrusion_width s.expolygon).2)).flatten) ∧
      (∀ e : ExPolygon,
        ((perimetersForIsland r._region.perimeters
            r._region.extrusion_width e).1.length ≤ r._region.perimeters) ∧
        (islandWidth e < r._region.extrusion_width →
          (perimetersForIsland r._region.perimeters
              r._region.extrusion_width e).1 = [] ∧
          (perimetersForIsland r._region.perimeters
              r._region.extrusion_width e).2 ≠ []) ∧
        (¬ islandWidth e < r._region.extrusion_width →
          (perimetersForIsland r._region.perimeters
              r._region.extrusion_width e).1
            = (List.range (min r._region.perimeters
                (maxLoops (islandWidth e) r._region.extrusion_width))).map
                (loopGroup r._region.extrusion_width e)) ∧
        (∀ g ∈ (perimetersForIsland r._region.perimeters
            r._region.extrusion_width e).1,
          ∀ p ∈ entityPaths g, 0 < p.width)) := by
  intro r sc hew
  refine ⟨?_, ?_, ?_⟩
  · simp [LayerRegion.make_perimeters, List.map_map, Function.comp_def]
  · simp [LayerRegion.make_perimeters, List.map_map, Function.comp_def]
  · intro e
    by_cases hw : islandWidth e < r._region.extrusion_width
    · refine ⟨?_, ?_, ?_, ?_⟩
      · simp [perimetersForIsland, hw]
      · intro _
        simp [perimetersForIsland, hw]
      · intro hc
        exact absurd hw hc
      · intro g hg
        simp [perimetersForIsland, hw] at hg
    · refine ⟨?_, ?_, ?_, ?_⟩
      · simp [perimetersForIsland, hw]
      · intro hc
        exact absurd hc hw
      · intro _
        simp [perimetersForIsland, hw]
      · intro g hg p hp
        simp [perimetersForIsland, hw, List.mem_map] at hg
        obtain ⟨i, _, hgi⟩ := hg
        rw [← hgi] at hp
        simp [loopGroup, entityPaths] at hp
        rw [hp]
        exact hew

/-- Witness for C7: the sample region (positive extrusion width 2) applied
to the sample slice collection. -/
theorem make_perimeters_spec_witness :
    (0 < sampleRegionA._region.extrusion_width) ∧
    ((sampleRegionA.make_perimeters ⟨[sampleSurface]⟩).1.perimeters.entities
        = (([sampleSurface] : List Surface).map (fun s =>
            (perimetersForIsland sampleRegionA._region.perimeters
              sampleRegionA._region.extrusion_width s.expolygon).1)).flatten) :=
  ⟨by decide, (make_perimeters_spec sampleRegionA ⟨[sampleSurface]⟩ (by decide)).1⟩

/-- C8: flow is a pure query of the region state — in state-passing form a
call leaves the region unchanged, a repeated call on the resulting state
returns the same deposition geometry, and the returned geometry is the
deterministic flow-model value for the region's configuration. -/
theorem flow_pure_spec :
    ∀ (r : LayerRegion) (role : FlowRole) (bridge : Bool) (width : Int),
      ((r.flowSt role bridge width).2.flowSt role bridge width).2 = r ∧
      ((r.flowSt role bridge width).2.flowSt role bridge width).1
        = (r.flowSt role bridge width).1 ∧
      (r.flowSt role bridge width).1
        = flowModel r._region r.layer_height role bridge width := by
  intro r role bridge width
  exact ⟨rfl, rfl, rfl⟩

/-- C9: a freshly constructed Layer has null neighbors, no slicing errors,
empty regions and empty slices, stores the constructor arguments in _id,
height, print_z and slice_z, and consequently reports no extrusions. -/
theorem Layer_ctor_spec :
    ∀ (id object : Nat) (height print_z slice_z : Rat),
      (Layer.mkLayer id object height print_z slice_z).upper_layer = none ∧
      (Layer.mkLayer id object height print_z slice_z).lower_layer = none ∧
      (Layer.mkLayer id object height print_z slice_z).slicing_errors = false ∧
      (Layer.mkLayer id object height print_z slice_z).regions = [] ∧
      (Layer.mkLayer id object height print_z slice_z).slices.expolygons = [] ∧
      (Layer.mkLayer id object height print_z slice_z)._id = id ∧
      (Layer.mkLayer id object height print_z slice_z)._object = object ∧
      (Layer.mkLayer id object height print_z slice_z).height = height ∧
      (Layer.mkLayer id object height print_z slice_z).print_z = print_z ∧
      (Layer.mkLayer id object height print_z slice_z).slice_z = slice_z ∧
      (Layer.mkLayer id object height print_z slice_z).has_extrusions = false := by
  intro id object height print_z slice_z
  exact ⟨rfl, rfl, rfl, rfl, rfl, rfl, rfl, rfl, rfl, rfl, rfl⟩

/-- C10: get_region is bounds-checked — an index inside [0, region_count)
returns the region stored at that index, and any other index, negative
ones included, produces the out-of-range error rather than undefined
behavior. -/
theorem get_region_bounds_spec :
    ∀ (l : Layer) (idx : Int),
      (∀ (h0 : 0 ≤ idx) (hn : idx.toNat < l.regions.length),
        l.get_region idx = .ok (l.regions.get ⟨idx.toNat, hn⟩)) ∧
      ((idx < 0 ∨ l.regions.length ≤ idx.toNat) →
        l.get_region idx = .error "out_of_range") := by
  intro l idx
  constructor
  · intro h0 hn
    unfold Layer.get_region
    rw [dif_pos ⟨h0, hn⟩]
  · intro hout
    unfold Layer.get_region
    rw [dif_neg]
    intro hc
    rcases hout with h | h
    · omega
    · exact absurd hc.2 (by omega)

/-- Witness for C10: on the sample layer with one region, index 0 returns
that region while index -1 and index 5 report out of range. -/
theorem get_region_bounds_witness :
    (sampleLayerA.get_region 0 = .ok sampleRegionA) ∧
    (sampleLayerA.get_region (-1) = .error "out_of_range") ∧
    (sampleLayerA.get_region 5 = .error "out_of_range") :=
  ⟨(get_region_bounds_spec sampleLayerA 0).1 (by decide) (by decide),
   (get_region_bounds_spec sampleLayerA (-1)).2 (Or.inl (by decide)),
   (get_region_bounds_spec sampleLayerA 5).2 (Or.inr (by decide))⟩

end Slic3r
